import Mathlib

/-!
Application bootstrap of `src/main.cpp`.

`main` is straight-line wiring of a GUI toolkit.  Everything it does is a call
into the toolkit, so the embedding makes those calls observable: each toolkit
entry point used by `main` appends one `Call` (with its arguments) to the trace
of a `World`, and every value the toolkit hands back to `main` is read from an
`Env` of outcomes.  `main` itself is translated statement by statement, in
explicit state-passing style.
-/

namespace Mirage

/-- Strings of the toolkit. -/
abbrev QString := String

/-- Application attributes passed to `QApplication::setAttribute`. -/
inductive ApplicationAttribute where
  | AA_EnableHighDpiScaling
  deriving DecidableEq, Repr

/-- Values stored as context properties. `main` only stores booleans. -/
inductive QVariant where
  | bool (b : Bool)
  deriving DecidableEq, Repr

/-- A `QQmlContext`: whether it was built on the engine's root context
(`new QQmlContext(engine.rootContext())`) and the properties set on it. -/
structure QQmlContext where
  onEngineRoot : Bool
  properties : List (QString × QVariant)
  deriving DecidableEq, Repr

/-- The two registration entry points `main` uses. -/
inductive RegistrationKind where
  | singletonType
  | instantiableType
  deriving DecidableEq, Repr

/-- One toolkit call made by `main`, with its arguments.  The factory lambdas
passed to `qmlRegisterSingletonType` are not run by `main` and are not part of
the call. -/
inductive Call where
  | setOrganizationName (name : QString)
  | setApplicationName (name : QString)
  | setApplicationDisplayName (name : QString)
  | setApplicationVersion (version : QString)
  | setAttribute (attr : ApplicationAttribute)
  | newApplication
  | setStyle (style : QString)
  | setFallbackStyle (style : QString)
  | newFileInfo (path : QString)
  | fileInfoExists (path : QString)
  | addApplicationFont (path : QString)
  | newEngine
  | rootContext
  | newContext
  | setContextProperty (name : QString) (value : QVariant)
  | qmlRegister (kind : RegistrationKind) (cppType : QString)
      (uri : QString) (versionMajor versionMinor : Nat) (qmlName : QString)
  | newComponent (fileName : QString)
  | componentCreate (context : QQmlContext)
  | exec
  deriving DecidableEq, Repr

/-- What is fixed when the program is compiled: whether `QT_DEBUG` is defined,
and the organization name.  The literal on line 22 of the source has no closing
quote, so its value cannot be read off the source and is kept as a parameter. -/
structure Build where
  qtDebug : Bool
  organizationName : QString

/-- Everything the toolkit returns to `main` at run time.  `fileExists n` is the
answer to the `n`-th `exists()` query (counted from 0), `fontId n` the id
returned by the `n`-th `addApplicationFont` call (`-1` on failure),
`componentLoaded` whether the root document could be loaded, `createdObject`
whether `create` returned an object, and `execResult` the value returned by
`app.exec()`. -/
structure Env where
  fileExists : Nat → Bool
  fontId : Nat → Int
  componentLoaded : Bool
  createdObject : Bool
  execResult : Int

/-- The observable state: the calls made so far, oldest first, and how many
`exists()` queries and font loads have been answered. -/
structure World where
  trace : List Call
  existsQueries : Nat
  fontLoads : Nat
  deriving DecidableEq, Repr

/-- The state before `main` runs. -/
def World.start : World := ⟨[], 0, 0⟩

/-- Record one call. -/
def World.call (w : World) (c : Call) : World :=
  { w with trace := w.trace ++ [c] }

/-- A `QFileInfo` object: the path it was constructed on. -/
structure QFileInfo where
  path : QString
  deriving DecidableEq, Repr

/-- Constructor `QFileInfo qrcPath(path)`. -/
def QFileInfo.new (path : QString) (w : World) : QFileInfo × World :=
  (⟨path⟩, w.call (.newFileInfo path))

/-- Method `QFileInfo::exists()`: the answer comes from the environment. -/
def QFileInfo.exists (f : QFileInfo) (env : Env) (w : World) : Bool × World :=
  (env.fileExists w.existsQueries,
   { w.call (.fileInfoExists f.path) with existsQueries := w.existsQueries + 1 })

/-- Static `QFontDatabase::addApplicationFont(path)`: returns the font id. -/
def QFontDatabase.addApplicationFont (path : QString) (env : Env) (w : World) :
    Int × World :=
  (env.fontId w.fontLoads,
   { w.call (.addApplicationFont path) with fontLoads := w.fontLoads + 1 })

/-- Method `QQmlContext::setContextProperty(name, value)`: sets or replaces the
property on the context. -/
def QQmlContext.setContextProperty (c : QQmlContext) (name : QString)
    (value : QVariant) (w : World) : QQmlContext × World :=
  ({ c with properties := c.properties.filter (fun p => p.1 != name) ++ [(name, value)] },
   w.call (.setContextProperty name value))

/-- A `QQmlComponent`: the file name it was constructed on and whether the
document was loaded. -/
structure QQmlComponent where
  fileName : QString
  loaded : Bool
  deriving DecidableEq, Repr

/-- Constructor `QQmlComponent component(&engine, fileName)`. -/
def QQmlComponent.new (fileName : QString) (env : Env) (w : World) :
    QQmlComponent × World :=
  (⟨fileName, env.componentLoaded⟩, w.call (.newComponent fileName))

/-- Method `QQmlComponent::create(context)`: returns whether an object was
created. -/
def QQmlComponent.create (c : QQmlComponent) (context : QQmlContext) (env : Env)
    (w : World) : Bool × World :=
  (c.loaded && env.createdObject, w.call (.componentCreate context))

/-- Method `QApplication::exec()`: runs the event loop and returns its value. -/
def QApplication.exec (env : Env) (w : World) : Int × World :=
  (env.execResult, w.call .exec)

/-- The `foreach (x, xs) body` loop, threading the state. -/
def foreach {α : Type} (xs : List α) (body : α → World → World) (w : World) : World :=
  match xs with
  | [] => w
  | x :: rest => foreach rest body (body x w)

/-- The program `main` of `src/main.cpp`: returns the exit code and the final
state. -/
def main (b : Build) (env : Env) : Int × World :=
  let w := World.start
  -- lines 22-27
  let w := w.call (.setOrganizationName b.organizationName)
  let w := w.call (.setApplicationName "Qtune")
  let w := w.call (.setApplicationDisplayName "Qtune")
  let w := w.call (.setApplicationVersion "0.4.3")
  let w := w.call (.setAttribute .AA_EnableHighDpiScaling)
  let w := w.call .newApplication
  -- lines 31-32
  let w := w.call (.setStyle "Fusion")
  let w := w.call (.setFallbackStyle "Default")
  -- lines 38-39
  let (qrcPath, w) := QFileInfo.new ":src/gui/Window.qml" w
  let (found, w) := qrcPath.exists env w
  let src : QString := if found then ":/src" else "src"
  -- lines 41-45
  let fontFamilies : List QString := [] ++ ["roboto"] ++ ["hack"]
  let fontVariants : List QString := [] ++ ["regular"] ++ ["italic"] ++ ["bold"] ++ ["bold-italic"]
  -- lines 47-53
  let w := foreach fontFamilies (fun family w =>
    foreach fontVariants (fun var w =>
      (QFontDatabase.addApplicationFont
        (src ++ "/fonts/" ++ family ++ "/" ++ var ++ ".ttf") env w).2) w) w
  -- lines 57-58
  let w := w.call .newEngine
  let w := w.call .rootContext
  let objectContext : QQmlContext := ⟨true, []⟩
  let w := w.call .newContext
  -- lines 62-66
  let (objectContext, w) :=
    if b.qtDebug then objectContext.setContextProperty "debugMode" (.bool true) w
    else objectContext.setContextProperty "debugMode" (.bool false) w
  -- lines 73-95
  let w := w.call (.qmlRegister .singletonType "Clipboard" "Clipboard" 0 1 "Clipboard")
  let w := w.call (.qmlRegister .singletonType "Utils" "CppUtils" 0 1 "CppUtils")
  let w := w.call (.qmlRegister .instantiableType "RadialBar" "RadialBar" 1 0 "RadialBar")
  -- lines 99-103
  let (found2, w) := qrcPath.exists env w
  let (component, w) :=
    QQmlComponent.new (if found2 then "qrc:/src/gui/Window.qml" else "src/gui/Window.qml") env w
  let (_, w) := component.create objectContext env w
  -- line 106
  QApplication.exec env w

/-- Font paths passed to `addApplicationFont`, in call order. -/
def fontLoadPaths (t : List Call) : List QString :=
  t.filterMap fun c => match c with
    | .addApplicationFont p => some p
    | _ => none

/-- File names the root component was constructed on, in call order. -/
def rootDocumentPaths (t : List Call) : List QString :=
  t.filterMap fun c => match c with
    | .newComponent p => some p
    | _ => none

/-- Every asset path `main` hands to the toolkit after the existence check:
the font paths and the root document path. -/
def assetPaths (t : List Call) : List QString :=
  fontLoadPaths t ++ rootDocumentPaths t

/-- Paths of the `QFileInfo` objects constructed, in call order. -/
def fileInfoObjects (t : List Call) : List QString :=
  t.filterMap fun c => match c with
    | .newFileInfo p => some p
    | _ => none

/-- Paths whose existence was queried, one entry per `exists()` call. -/
def existenceChecks (t : List Call) : List QString :=
  t.filterMap fun c => match c with
    | .fileInfoExists p => some p
    | _ => none

/-- The declarative registrations made, in call order, as
(kind, namespace, major, minor, type name). -/
def registrations (t : List Call) :
    List (RegistrationKind × QString × Nat × Nat × QString) :=
  t.filterMap fun c => match c with
    | .qmlRegister kind _ uri major minor name => some (kind, uri, major, minor, name)
    | _ => none

/-- The (name, value) pairs of the `setContextProperty` calls, in call order. -/
def injectedProperties (t : List Call) : List (QString × QVariant) :=
  t.filterMap fun c => match c with
    | .setContextProperty name value => some (name, value)
    | _ => none

/-- The contexts handed to `create`, that is, bound to the root document. -/
def boundContexts (t : List Call) : List QQmlContext :=
  t.filterMap fun c => match c with
    | .componentCreate context => some context
    | _ => none

/-- Does `s` begin with `p`? -/
def startsWith (p s : QString) : Bool :=
  p.data.isPrefixOf s.data

/-- An environment in which every `exists()` query is answered `found`, every
toolkit operation succeeds and the event loop returns `code`. -/
def envConst (found : Bool) (code : Int) : Env :=
  ⟨fun _ => found, fun n => n, true, true, code⟩

/-- An environment in which every `exists()` query is answered `found`, every
font load fails, the root document fails to load, no root object is created, and
the event loop returns `code`. -/
def envFailing (found : Bool) (code : Int) : Env :=
  ⟨fun _ => found, fun _ => -1, false, false, code⟩

/-- A release build (`QT_DEBUG` not defined). -/
def releaseBuild : Build := ⟨false, "Qtune"⟩

/-- A debug build (`QT_DEBUG` defined). -/
def debugBuild : Build := ⟨true, "Qtune"⟩

/-- The calls of `main` in order, as a function of the build and of the two
answers to the `exists()` queries. -/
theorem main_trace (b : Build) (env : Env) :
    (main b env).2.trace =
      [Call.setOrganizationName b.organizationName,
       .setApplicationName "Qtune",
       .setApplicationDisplayName "Qtune",
       .setApplicationVersion "0.4.3",
       .setAttribute .AA_EnableHighDpiScaling,
       .newApplication,
       .setStyle "Fusion",
       .setFallbackStyle "Default",
       .newFileInfo ":src/gui/Window.qml",
       .fileInfoExists ":src/gui/Window.qml"]
      ++ (["roboto", "hack"].flatMap fun family =>
            ["regular", "italic", "bold", "bold-italic"].map fun variant =>
              Call.addApplicationFont
                ((if env.fileExists 0 then ":/src" else "src")
                  ++ "/fonts/" ++ family ++ "/" ++ variant ++ ".ttf"))
      ++ [.newEngine, .rootContext, .newContext,
          .setContextProperty "debugMode" (.bool b.qtDebug),
          .qmlRegister .singletonType "Clipboard" "Clipboard" 0 1 "Clipboard",
          .qmlRegister .singletonType "Utils" "CppUtils" 0 1 "CppUtils",
          .qmlRegister .instantiableType "RadialBar" "RadialBar" 1 0 "RadialBar",
          .fileInfoExists ":src/gui/Window.qml",
          .newComponent
            (if env.fileExists 1 then "qrc:/src/gui/Window.qml" else "src/gui/Window.qml"),
          .componentCreate ⟨true, [("debugMode", .bool b.qtDebug)]⟩,
          .exec] := by
  obtain ⟨d, org⟩ := b
  cases d <;>
    simp only [main, World.start, World.call, QFileInfo.new, QFileInfo.exists,
      QFontDatabase.addApplicationFont, QQmlContext.setContextProperty, QQmlComponent.new,
      QQmlComponent.create, QApplication.exec, foreach, Bool.false_eq_true, if_false, if_true, Nat.zero_add] <;>
    cases env.fileExists 0 <;> cases env.fileExists 1 <;>
    simp only [Bool.false_eq_true, if_false, if_true, List.nil_append, List.cons_append,
      List.flatMap, List.map, List.flatten, List.append_nil, List.filter, String.reduceAppend]


/-- The font paths loaded by `main`, by the first `exists()` answer. -/
theorem main_fontLoadPaths (b : Build) (env : Env) :
    fontLoadPaths (main b env).2.trace =
      if env.fileExists 0 then
        [":/src/fonts/roboto/regular.ttf", ":/src/fonts/roboto/italic.ttf",
         ":/src/fonts/roboto/bold.ttf", ":/src/fonts/roboto/bold-italic.ttf",
         ":/src/fonts/hack/regular.ttf", ":/src/fonts/hack/italic.ttf",
         ":/src/fonts/hack/bold.ttf", ":/src/fonts/hack/bold-italic.ttf"]
      else
        ["src/fonts/roboto/regular.ttf", "src/fonts/roboto/italic.ttf",
         "src/fonts/roboto/bold.ttf", "src/fonts/roboto/bold-italic.ttf",
         "src/fonts/hack/regular.ttf", "src/fonts/hack/italic.ttf",
         "src/fonts/hack/bold.ttf", "src/fonts/hack/bold-italic.ttf"] := by
  rw [main_trace]
  cases env.fileExists 0 <;> cases env.fileExists 1 <;> simp [fontLoadPaths]

/-- The root document path used by `main`, by the second `exists()` answer. -/
theorem main_rootDocumentPaths (b : Build) (env : Env) :
    rootDocumentPaths (main b env).2.trace =
      [if env.fileExists 1 then "qrc:/src/gui/Window.qml" else "src/gui/Window.qml"] := by
  rw [main_trace]
  cases env.fileExists 0 <;> cases env.fileExists 1 <;> simp [rootDocumentPaths]

/-- The context properties set by `main` and the context it binds. -/
theorem main_context (b : Build) (env : Env) :
    injectedProperties (main b env).2.trace = [("debugMode", .bool b.qtDebug)] ∧
    boundContexts (main b env).2.trace = [⟨true, [("debugMode", .bool b.qtDebug)]⟩] := by
  rw [main_trace]
  cases env.fileExists 0 <;> cases env.fileExists 1 <;>
    simp [injectedProperties, boundContexts]

/-- Number of `exists()` queries and of font loads answered by the end of
`main`. -/
theorem main_counts (b : Build) (env : Env) :
    (main b env).2.existsQueries = 2 ∧ (main b env).2.fontLoads = 8 := by
  obtain ⟨d, org⟩ := b
  cases d <;> exact ⟨rfl, rfl⟩


/-- The value returned by `main`, for any build and environment. -/
theorem main_exit_code (b : Build) (env : Env) : (main b env).1 = env.execResult := by
  obtain ⟨d, org⟩ := b
  cases d <;> rfl

/-- C1: for every build configuration and every outcome of the existence
queries, of the font loads, of the root-document load and of the construction,
`main` returns through the event-loop call: its result is the result of
`QApplication::exec()` run on a state in which the event loop had not been
entered, so the returned value is that call's value, unaltered, and the
event-loop call is the last call of the run and the only one of its kind. -/
theorem main_returns_exec_result (b : Build) (env : Env) :
    (∃ w : World, main b env = QApplication.exec env w ∧ Call.exec ∉ w.trace) ∧
    (main b env).1 = env.execResult ∧
    (main b env).2.trace.getLast? = some .exec ∧
    (main b env).2.trace.count .exec = 1 := by
  refine ⟨?_, main_exit_code b env, ?_, ?_⟩
  · obtain ⟨d, org⟩ := b
    cases d
    all_goals
      refine ⟨_, rfl, ?_⟩
      simp only [World.start, World.call, QFileInfo.new, QFileInfo.exists,
        QFontDatabase.addApplicationFont, QQmlContext.setContextProperty, QQmlComponent.new,
        QQmlComponent.create, foreach, Bool.false_eq_true, if_false, if_true, Nat.zero_add]
      simp
  · rw [main_trace]; simp
  · rw [main_trace]
    cases env.fileExists 0 <;> cases env.fileExists 1 <;> rfl

/-- C2, as stated, fails: with the embedded document present (both `exists()`
queries answered true) in a release build, not every asset path starts with
`:/src/`, because the root document is named `qrc:/src/gui/Window.qml`. -/
theorem embedded_document_path_is_qrc_url :
    (envConst true 0).fileExists 0 = true ∧ (envConst true 0).fileExists 1 = true ∧
    rootDocumentPaths (main releaseBuild (envConst true 0)).2.trace
      = ["qrc:/src/gui/Window.qml"] ∧
    ¬ (∀ p ∈ assetPaths (main releaseBuild (envConst true 0)).2.trace,
        startsWith ":/src/" p = true) := by
  decide

/-- C2, amended: when both `exists()` queries are answered true, the 8 font
paths start with `:/src/`, the root document path is `qrc:/src/gui/Window.qml`
(prefix `qrc:/src/`), no asset path starts with the local prefix `src/`, and in a
release build the only injected variable is `debugMode = false`. -/
theorem embedded_asset_paths (b : Build) (env : Env)
    (h0 : env.fileExists 0 = true) (h1 : env.fileExists 1 = true) :
    (fontLoadPaths (main b env).2.trace).length = 8 ∧
    (∀ p ∈ fontLoadPaths (main b env).2.trace, startsWith ":/src/" p = true) ∧
    rootDocumentPaths (main b env).2.trace = ["qrc:/src/gui/Window.qml"] ∧
    (∀ p ∈ rootDocumentPaths (main b env).2.trace, startsWith "qrc:/src/" p = true) ∧
    (∀ p ∈ assetPaths (main b env).2.trace, startsWith "src/" p = false) ∧
    (b.qtDebug = false →
      injectedProperties (main b env).2.trace = [("debugMode", .bool false)] ∧
      boundContexts (main b env).2.trace = [⟨true, [("debugMode", .bool false)]⟩]) := by
  rw [assetPaths, main_fontLoadPaths, main_rootDocumentPaths, h0, h1]
  refine ⟨by decide, by decide, by decide, by decide, by decide, ?_⟩
  intro hd
  have hc := main_context b env
  rw [hd] at hc
  exact hc

/-- Witness of `embedded_asset_paths`: a release build with the embedded document
present. -/
theorem embedded_asset_paths_witness :
    (envConst true 0).fileExists 0 = true ∧ (envConst true 0).fileExists 1 = true ∧
    releaseBuild.qtDebug = false ∧
    (∀ p ∈ fontLoadPaths (main releaseBuild (envConst true 0)).2.trace,
      startsWith ":/src/" p = true) ∧
    rootDocumentPaths (main releaseBuild (envConst true 0)).2.trace
      = ["qrc:/src/gui/Window.qml"] ∧
    boundContexts (main releaseBuild (envConst true 0)).2.trace
      = [⟨true, [("debugMode", .bool false)]⟩] :=
  ⟨rfl, rfl, rfl,
   (embedded_asset_paths releaseBuild (envConst true 0) rfl rfl).2.1,
   (embedded_asset_paths releaseBuild (envConst true 0) rfl rfl).2.2.1,
   ((embedded_asset_paths releaseBuild (envConst true 0) rfl rfl).2.2.2.2.2 rfl).2⟩

/-- C3: when both `exists()` queries are answered false, each of the 8 font
paths and the root document path `src/gui/Window.qml` starts with `src/`, none
starts with `:` or `qrc:`, and in a debug build `debugMode` is true. -/
theorem local_asset_paths (b : Build) (env : Env)
    (h0 : env.fileExists 0 = false) (h1 : env.fileExists 1 = false) :
    (fontLoadPaths (main b env).2.trace).length = 8 ∧
    rootDocumentPaths (main b env).2.trace = ["src/gui/Window.qml"] ∧
    (∀ p ∈ assetPaths (main b env).2.trace, startsWith "src/" p = true) ∧
    (∀ p ∈ assetPaths (main b env).2.trace,
      startsWith ":" p = false ∧ startsWith "qrc:" p = false) ∧
    (b.qtDebug = true →
      injectedProperties (main b env).2.trace = [("debugMode", .bool true)] ∧
      boundContexts (main b env).2.trace = [⟨true, [("debugMode", .bool true)]⟩]) := by
  rw [assetPaths, main_fontLoadPaths, main_rootDocumentPaths, h0, h1]
  refine ⟨by decide, by decide, by decide, by decide, ?_⟩
  intro hd
  have hc := main_context b env
  rw [hd] at hc
  exact hc

/-- Witness of `local_asset_paths`: a debug build without embedded resources. -/
theorem local_asset_paths_witness :
    (envConst false 0).fileExists 0 = false ∧ (envConst false 0).fileExists 1 = false ∧
    debugBuild.qtDebug = true ∧
    rootDocumentPaths (main debugBuild (envConst false 0)).2.trace
      = ["src/gui/Window.qml"] ∧
    (∀ p ∈ assetPaths (main debugBuild (envConst false 0)).2.trace,
      startsWith "src/" p = true) ∧
    boundContexts (main debugBuild (envConst false 0)).2.trace
      = [⟨true, [("debugMode", .bool true)]⟩] :=
  ⟨rfl, rfl, rfl,
   (local_asset_paths debugBuild (envConst false 0) rfl rfl).2.1,
   (local_asset_paths debugBuild (envConst false 0) rfl rfl).2.2.1,
   ((local_asset_paths debugBuild (envConst false 0) rfl rfl).2.2.2.2 rfl).2⟩

/-- C4: `main` makes exactly 8 font-load calls, one per (family, variant) pair of
{roboto, hack} × {regular, italic, bold, bold-italic}, each with the argument
`<root>/fonts/<family>/<variant>.ttf`, where `<root>` is `:/src` or `src`
according to the first `exists()` answer. -/
theorem font_loads (b : Build) (env : Env) :
    (fontLoadPaths (main b env).2.trace).length = 8 ∧
    (main b env).2.fontLoads = 8 ∧
    fontLoadPaths (main b env).2.trace =
      ["roboto", "hack"].flatMap fun family =>
        ["regular", "italic", "bold", "bold-italic"].map fun variant =>
          (if env.fileExists 0 then ":/src" else "src")
            ++ "/fonts/" ++ family ++ "/" ++ variant ++ ".ttf" := by
  refine ⟨?_, (main_counts b env).2, ?_⟩ <;> rw [main_trace] <;>
    cases env.fileExists 0 <;> cases env.fileExists 1 <;> simp [fontLoadPaths]

/-- C5: `main` performs exactly three registrations, (`Clipboard`,0,1,`Clipboard`)
and (`CppUtils`,0,1,`CppUtils`) as singletons and (`RadialBar`,1,0,`RadialBar`)
as an instantiable type, whatever the build and the environment. -/
theorem three_registrations (b : Build) (env : Env) :
    registrations (main b env).2.trace =
      [(.singletonType, "Clipboard", 0, 1, "Clipboard"),
       (.singletonType, "CppUtils", 0, 1, "CppUtils"),
       (.instantiableType, "RadialBar", 1, 0, "RadialBar")] := by
  rw [main_trace]
  cases env.fileExists 0 <;> cases env.fileExists 1 <;> simp [registrations]

/-- C6: exactly one context is bound to the root document; it is built on the
engine's root context and its only injected variable is `debugMode`, whose value
is the debug flag of the build, whatever the answers to the existence queries. -/
theorem debug_flag_only_injected_variable (b : Build) (env : Env) :
    injectedProperties (main b env).2.trace = [("debugMode", .bool b.qtDebug)] ∧
    boundContexts (main b env).2.trace = [⟨true, [("debugMode", .bool b.qtDebug)]⟩] := by
  exact main_context b env

/-- C7, as stated, fails: the existence of the embedded root document is queried
twice in one run, not once. -/
theorem existence_queried_twice :
    existenceChecks (main releaseBuild (envConst true 0)).2.trace
      = [":src/gui/Window.qml", ":src/gui/Window.qml"] ∧
    ¬ ((existenceChecks (main releaseBuild (envConst true 0)).2.trace).length = 1) := by
  decide

/-- C7, amended: one `QFileInfo` is constructed on `:src/gui/Window.qml` and its
`exists()` is called exactly twice: the first call comes right after the
construction and right before the 8 font loads, whose root is derived from its
answer; the second comes after the font loads, right before the root component
is constructed, whose path is derived from that second answer. -/
theorem resource_root_queries (b : Build) (env : Env) :
    fileInfoObjects (main b env).2.trace = [":src/gui/Window.qml"] ∧
    existenceChecks (main b env).2.trace
      = [":src/gui/Window.qml", ":src/gui/Window.qml"] ∧
    (main b env).2.existsQueries = 2 ∧
    fontLoadPaths (main b env).2.trace =
      (["roboto", "hack"].flatMap fun family =>
        ["regular", "italic", "bold", "bold-italic"].map fun variant =>
          (if env.fileExists 0 then ":/src" else "src")
            ++ "/fonts/" ++ family ++ "/" ++ variant ++ ".ttf") ∧
    rootDocumentPaths (main b env).2.trace =
      [if env.fileExists 1 then "qrc:/src/gui/Window.qml" else "src/gui/Window.qml"] ∧
    ∃ before between after : List Call,
      (main b env).2.trace =
        before
        ++ [.newFileInfo ":src/gui/Window.qml", .fileInfoExists ":src/gui/Window.qml"]
        ++ (fontLoadPaths (main b env).2.trace).map Call.addApplicationFont
        ++ between
        ++ [.fileInfoExists ":src/gui/Window.qml",
            .newComponent
              (if env.fileExists 1 then "qrc:/src/gui/Window.qml" else "src/gui/Window.qml")]
        ++ after ∧
      (fontLoadPaths (main b env).2.trace).length = 8 ∧
      existenceChecks (before ++ between ++ after) = [] ∧
      fontLoadPaths (before ++ between ++ after) = [] ∧
      rootDocumentPaths (before ++ between ++ after) = [] := by
  refine ⟨?_, ?_, (main_counts b env).1, ?_, ?_, ?_⟩
  · rw [main_trace]
    cases env.fileExists 0 <;> cases env.fileExists 1 <;> simp [fileInfoObjects]
  · rw [main_trace]
    cases env.fileExists 0 <;> cases env.fileExists 1 <;> simp [existenceChecks]
  · rw [main_trace]
    cases env.fileExists 0 <;> cases env.fileExists 1 <;> simp [fontLoadPaths]
  · exact main_rootDocumentPaths b env
  · refine ⟨[.setOrganizationName b.organizationName, .setApplicationName "Qtune",
        .setApplicationDisplayName "Qtune", .setApplicationVersion "0.4.3",
        .setAttribute .AA_EnableHighDpiScaling, .newApplication,
        .setStyle "Fusion", .setFallbackStyle "Default"],
      [.newEngine, .rootContext, .newContext,
        .setContextProperty "debugMode" (.bool b.qtDebug),
        .qmlRegister .singletonType "Clipboard" "Clipboard" 0 1 "Clipboard",
        .qmlRegister .singletonType "Utils" "CppUtils" 0 1 "CppUtils",
        .qmlRegister .instantiableType "RadialBar" "RadialBar" 1 0 "RadialBar"],
      [.componentCreate ⟨true, [("debugMode", .bool b.qtDebug)]⟩, .exec], ?_, ?_, rfl, rfl, rfl⟩
    · rw [main_fontLoadPaths, main_trace]
      cases env.fileExists 0 <;> cases env.fileExists 1 <;> rfl
    · rw [main_fontLoadPaths]
      cases env.fileExists 0 <;> rfl

/-- C8: two runs of the same build whose `exists()` answers agree make the same
sequence of toolkit calls with the same arguments, whatever the font loads, the
document load and the construction return; the event loop is entered, as the
last call, and each run returns its event loop's value. -/
theorem results_never_checked (b : Build) (e1 e2 : Env)
    (h0 : e1.fileExists 0 = e2.fileExists 0) (h1 : e1.fileExists 1 = e2.fileExists 1) :
    (main b e1).2.trace = (main b e2).2.trace ∧
    Call.exec ∈ (main b e1).2.trace ∧
    (main b e1).2.trace.getLast? = some .exec ∧
    (main b e2).2.trace.getLast? = some .exec ∧
    (main b e1).1 = e1.execResult ∧ (main b e2).1 = e2.execResult := by
  refine ⟨?_, ?_, ?_, ?_, main_exit_code b e1, main_exit_code b e2⟩
  · rw [main_trace, main_trace, h0, h1]
  · rw [main_trace]; simp
  · rw [main_trace]; simp
  · rw [main_trace]; simp

/-- Witness of `results_never_checked`: a run where everything succeeds against a
run where every font load, the document load and the construction fail. -/
theorem results_never_checked_witness :
    (envConst true 0).fileExists 0 = (envFailing true 7).fileExists 0 ∧
    (envConst true 0).fileExists 1 = (envFailing true 7).fileExists 1 ∧
    (envConst true 0).fontId 3 ≠ (envFailing true 7).fontId 3 ∧
    (envConst true 0).componentLoaded ≠ (envFailing true 7).componentLoaded ∧
    (envConst true 0).createdObject ≠ (envFailing true 7).createdObject ∧
    (main debugBuild (envConst true 0)).2.trace
      = (main debugBuild (envFailing true 7)).2.trace ∧
    Call.exec ∈ (main debugBuild (envFailing true 7)).2.trace ∧
    (main debugBuild (envFailing true 7)).1 = 7 :=
  ⟨rfl, rfl, by decide, by decide, by decide,
   (results_never_checked debugBuild (envConst true 0) (envFailing true 7) rfl rfl).1,
   (results_never_checked debugBuild (envFailing true 7) (envConst true 0) rfl rfl).2.1,
   (results_never_checked debugBuild (envConst true 0) (envFailing true 7) rfl rfl).2.2.2.2.2⟩

/-- C9: in every run the calls occur in the fixed order: identity metadata, then
the application object, the style `Fusion` and its fallback `Default`, the
existence query and the font loads, engine and context construction with the
debug flag, the three registrations, the root-document load and construction,
and last, exactly once, the event-loop call. -/
theorem call_order (b : Build) (env : Env) :
    (main b env).2.trace =
      [Call.setOrganizationName b.organizationName,
       .setApplicationName "Qtune",
       .setApplicationDisplayName "Qtune",
       .setApplicationVersion "0.4.3",
       .setAttribute .AA_EnableHighDpiScaling,
       .newApplication]
      ++ [.setStyle "Fusion", .setFallbackStyle "Default"]
      ++ [.newFileInfo ":src/gui/Window.qml", .fileInfoExists ":src/gui/Window.qml"]
      ++ (fontLoadPaths (main b env).2.trace).map Call.addApplicationFont
      ++ [.newEngine, .rootContext, .newContext,
          .setContextProperty "debugMode" (.bool b.qtDebug)]
      ++ [.qmlRegister .singletonType "Clipboard" "Clipboard" 0 1 "Clipboard",
          .qmlRegister .singletonType "Utils" "CppUtils" 0 1 "CppUtils",
          .qmlRegister .instantiableType "RadialBar" "RadialBar" 1 0 "RadialBar"]
      ++ [.fileInfoExists ":src/gui/Window.qml",
          .newComponent
            (if env.fileExists 1 then "qrc:/src/gui/Window.qml" else "src/gui/Window.qml"),
          .componentCreate ⟨true, [("debugMode", .bool b.qtDebug)]⟩]
      ++ [.exec] ∧
    (fontLoadPaths (main b env).2.trace).length = 8 ∧
    (main b env).2.trace.getLast? = some .exec ∧
    (main b env).2.trace.count .exec = 1 := by
  rw [main_fontLoadPaths]
  refine ⟨?_, ?_, ?_, ?_⟩
  · rw [main_trace]
    cases env.fileExists 0 <;> cases env.fileExists 1 <;> rfl
  · cases env.fileExists 0 <;> rfl
  · rw [main_trace]; simp
  · rw [main_trace]
    cases env.fileExists 0 <;> cases env.fileExists 1 <;> rfl

/-- C10: for either resource root the 8 font paths are loaded in family-major
order (roboto then hack, each as regular, italic, bold, bold-italic), they are
pairwise distinct, and none of them is the root-document path. -/
theorem font_paths_order_distinct (b : Build) (env : Env) :
    fontLoadPaths (main b env).2.trace =
      [(if env.fileExists 0 then ":/src" else "src") ++ "/fonts/roboto/regular.ttf",
       (if env.fileExists 0 then ":/src" else "src") ++ "/fonts/roboto/italic.ttf",
       (if env.fileExists 0 then ":/src" else "src") ++ "/fonts/roboto/bold.ttf",
       (if env.fileExists 0 then ":/src" else "src") ++ "/fonts/roboto/bold-italic.ttf",
       (if env.fileExists 0 then ":/src" else "src") ++ "/fonts/hack/regular.ttf",
       (if env.fileExists 0 then ":/src" else "src") ++ "/fonts/hack/italic.ttf",
       (if env.fileExists 0 then ":/src" else "src") ++ "/fonts/hack/bold.ttf",
       (if env.fileExists 0 then ":/src" else "src") ++ "/fonts/hack/bold-italic.ttf"] ∧
    (fontLoadPaths (main b env).2.trace).Nodup ∧
    (rootDocumentPaths (main b env).2.trace).length = 1 ∧
    ∀ d ∈ rootDocumentPaths (main b env).2.trace,
      d ∉ fontLoadPaths (main b env).2.trace := by
  rw [main_trace]
  cases env.fileExists 0 <;> cases env.fileExists 1 <;>
    simp [fontLoadPaths, rootDocumentPaths]

end Mirage
